import Mathlib

/-!
Verification of the span / position / diagnostic-issue value layer of the
repository (`Span`, `Position`, `IssueKind`, `Issue`).  Character offsets,
lengths and movement deltas are JavaScript numbers used only at integer
values, so they are embedded as `Int`.  The `assert` calls in the `Position`
and `Issue` constructors throw on violation; a constructor with assertions is
embedded as an `Option`-returning smart constructor that yields `none`
exactly when some assertion fires.  The `Span` constructor has no assertions,
so `Span.mk` itself is total.
-/

/-- A span representing the character indexes that are contained by a
JSONToken: `constructor(private _startIndex: number, private _length: number)`
with no validation. -/
structure Span where
  startIndex : Int
  length : Int
deriving DecidableEq

/-- `get endIndex()`: `_startIndex + (_length > 0 ? _length - 1 : 0)`. -/
def Span.endIndex (s : Span) : Int :=
  s.startIndex + (if s.length > 0 then s.length - 1 else 0)

/-- `get afterEndIndex()`: `_startIndex + _length`. -/
def Span.afterEndIndex (s : Span) : Int :=
  s.startIndex + s.length

/-- `contains(index, includeAfterEndIndex = false)`: starts from
`_startIndex <= index` and, when that holds, refines it to
`index <= afterEndIndex` or `index <= endIndex` according to the flag. -/
def Span.contains (s : Span) (index : Int) (includeAfterEndIndex : Bool) : Bool :=
  decide (s.startIndex ≤ index) &&
    (if includeAfterEndIndex then decide (index ≤ s.afterEndIndex)
     else decide (index ≤ s.endIndex))

/-- Instance method `union(rhs: Span | undefined)`: when `rhs` is present,
builds the span from `min` of the starts with length
`max(afterEndIndexes) - min(starts)`; otherwise returns `this`. -/
def Span.union (s : Span) (rhs : Option Span) : Span :=
  match rhs with
  | some r =>
      let minStart := min s.startIndex r.startIndex
      let maxAfterEndIndex := max s.afterEndIndex r.afterEndIndex
      Span.mk minStart (maxAfterEndIndex - minStart)
  | none => s

/-- Static `Span.union(lhs, rhs)`: `lhs.union(rhs)` when `lhs` is present,
else `rhs` when present, else `undefined`. -/
def Span.unionStatic (lhs rhs : Option Span) : Option Span :=
  match lhs with
  | some l => some (l.union rhs)
  | none =>
    match rhs with
    | some r => some r
    | none => none

/-- `translate(movement)`: `movement === 0 ? this : new Span(_startIndex + movement, _length)`. -/
def Span.translate (s : Span) (movement : Int) : Span :=
  if movement = 0 then s else Span.mk (s.startIndex + movement) s.length

/-- Line/column coordinate, both zero-based. -/
structure Position where
  line : Int
  column : Int
deriving DecidableEq

/-- The `Position` constructor: asserts `_line >= 0` and `_column >= 0`
(in that order); `none` models the assertion throwing. -/
def positionMk (line column : Int) : Option Position :=
  if 0 ≤ line then
    if 0 ≤ column then some (Position.mk line column)
    else none
  else none

/-- The closed `IssueKind` enumeration of diagnostic categories. -/
inductive IssueKind where
  | tleSyntax
  | referenceInVar
  | unusedVar
  | unusedParam
  | unusedUdfParam
  | unusedUdf
  | badArgsCount
  | badFuncContext
  | undefinedFunc
  | undefinedNs
  | undefinedUdf
  | undefinedParam
  | undefinedVar
  | varInUdf
  | undefinedVarProp
deriving DecidableEq

/-- The fifteen `IssueKind` members in source order. -/
def IssueKind.all : List IssueKind :=
  [.tleSyntax, .referenceInVar, .unusedVar, .unusedParam, .unusedUdfParam,
   .unusedUdf, .badArgsCount, .badFuncContext, .undefinedFunc, .undefinedNs,
   .undefinedUdf, .undefinedParam, .undefinedVar, .varInUdf, .undefinedVarProp]

/-- An issue detected while parsing a deployment template: span, message
and kind. -/
structure Issue where
  span : Span
  message : String
  kind : IssueKind
deriving DecidableEq

/-- The `Issue` constructor: asserts `1 <= _span.length` and then
`_message !== ""`; `none` models an assertion throwing. -/
def issueMk (span : Span) (message : String) (kind : IssueKind) : Option Issue :=
  if 1 ≤ span.length then
    if message ≠ "" then some (Issue.mk span message kind)
    else none
  else none

/-- `Issue.translate(movement)`: `new Issue(this._span.translate(movement),
this._message, this.kind)` — the constructor re-runs its assertions. -/
def Issue.translate (i : Issue) (movement : Int) : Option Issue :=
  issueMk (i.span.translate movement) i.message i.kind

/-! ### Helper lemmas shared by the claim theorems -/

lemma Span.translate_startIndex (s : Span) (d : Int) :
    (s.translate d).startIndex = s.startIndex + d := by
  unfold Span.translate
  split <;> simp_all

lemma Span.translate_length (s : Span) (d : Int) :
    (s.translate d).length = s.length := by
  unfold Span.translate
  split <;> rfl

lemma Span.translate_zero (s : Span) : s.translate 0 = s := rfl

lemma issueMk_eq_none_iff (s : Span) (m : String) (k : IssueKind) :
    issueMk s m k = none ↔ (s.length < 1 ∨ m = "") := by
  unfold issueMk
  by_cases h1 : 1 ≤ s.length
  · by_cases h2 : m = ""
    · simp [h1, h2]
    · simp only [h1, if_true, ne_eq, h2, not_false_eq_true, if_true]
      simp [h2]
      omega
  · have hlt : s.length < 1 := by omega
    simp [h1, hlt]

lemma positionMk_eq_none_iff (line column : Int) :
    positionMk line column = none ↔ (line < 0 ∨ column < 0) := by
  unfold positionMk
  by_cases h1 : 0 ≤ line
  · by_cases h2 : 0 ≤ column
    · simp [h1, h2]
    · have hlt : column < 0 := by omega
      simp [h1, hlt]
  · have hlt : line < 0 := by omega
    simp [h1, hlt]

lemma Span.translate_translate (s : Span) (a b : Int) :
    (s.translate a).translate b = s.translate (a + b) := by
  obtain ⟨sx, sl⟩ := s
  simp only [Span.translate]
  split_ifs <;> simp_all [Span.mk.injEq] <;> omega

/-! ### Claim theorems -/

/-- C1: for every span `s` and integer `index`, `s.contains index` with the
default `includeAfterEndIndex = false` is true iff
`s.startIndex ≤ index ∧ index ≤ s.endIndex`, and `s.contains index true` is
true iff `s.startIndex ≤ index ∧ index ≤ s.afterEndIndex`; in particular for
`s = Span(3,4)`: `contains 2` is false, `contains 3` and `contains 6` are
true, `contains 7` is false, and `contains 7 true` is true. -/
theorem span_contains_spec :
    (∀ (s : Span) (index : Int),
      ((s.contains index false) = true ↔
        s.startIndex ≤ index ∧ index ≤ s.endIndex) ∧
      ((s.contains index true) = true ↔
        s.startIndex ≤ index ∧ index ≤ s.afterEndIndex)) ∧
    (Span.mk 3 4).contains 2 false = false ∧
    (Span.mk 3 4).contains 3 false = true ∧
    (Span.mk 3 4).contains 6 false = true ∧
    (Span.mk 3 4).contains 7 false = false ∧
    (Span.mk 3 4).contains 7 true = true := by
  refine ⟨fun s index => ⟨?_, ?_⟩, by decide, by decide, by decide,
    by decide, by decide⟩ <;>
    simp [Span.contains]

/-- C2: `a.union (some b)` has start `min` of the starts and after-end `max`
of the after-ends (hence union is commutative and bridges gaps, with
`Span(0,1) ∪ Span(10,1) = Span(0,11)` both ways); `s.union none = s`; and the
static union returns the present argument when exactly one is present and
`none` when both are absent. -/
theorem span_union_spec :
    (∀ a b : Span,
      (a.union (some b)).startIndex = min a.startIndex b.startIndex ∧
      (a.union (some b)).afterEndIndex = max a.afterEndIndex b.afterEndIndex) ∧
    (∀ a b : Span, a.union (some b) = b.union (some a)) ∧
    (Span.mk 0 1).union (some (Span.mk 10 1)) = Span.mk 0 11 ∧
    (Span.mk 10 1).union (some (Span.mk 0 1)) = Span.mk 0 11 ∧
    (∀ s : Span, s.union none = s) ∧
    (∀ s : Span, Span.unionStatic (some s) none = some s ∧
      Span.unionStatic none (some s) = some s) ∧
    Span.unionStatic none none = none := by
  refine ⟨fun a b => ⟨rfl, ?_⟩, fun a b => ?_, by decide, by decide,
    fun s => rfl, fun s => ⟨rfl, rfl⟩, rfl⟩
  · simp only [Span.union, Span.afterEndIndex]
    omega
  · simp only [Span.union, Span.mk.injEq]
    refine ⟨min_comm _ _, ?_⟩
    rw [min_comm, max_comm]

/-- C3: for every span `s`, `s.afterEndIndex - s.startIndex = s.length`, and
`s.endIndex = s.startIndex + max (s.length - 1) 0`, i.e.
`s.endIndex = s.startIndex + s.length - 1` when `s.length > 0` and
`s.endIndex = s.startIndex` when `s.length = 0`. -/
theorem span_index_arithmetic :
    ∀ s : Span,
      s.afterEndIndex - s.startIndex = s.length ∧
      s.endIndex = s.startIndex + max (s.length - 1) 0 ∧
      (s.length > 0 → s.endIndex = s.startIndex + s.length - 1) ∧
      (s.length = 0 → s.endIndex = s.startIndex) := by
  intro s
  have he : s.endIndex = s.startIndex + (if s.length > 0 then s.length - 1 else 0) :=
    rfl
  refine ⟨by simp [Span.afterEndIndex], ?_, fun h => ?_, fun h => ?_⟩ <;>
    rw [he] <;> split <;> omega

/-- Closed witness for C3 at `Span(3,4)` and `Span(3,0)`. -/
theorem span_index_arithmetic_witness :
    (Span.mk 3 4).afterEndIndex - (Span.mk 3 4).startIndex = (Span.mk 3 4).length ∧
    (Span.mk 3 4).endIndex = (Span.mk 3 4).startIndex + (Span.mk 3 4).length - 1 ∧
    (Span.mk 3 0).endIndex = (Span.mk 3 0).startIndex :=
  ⟨(span_index_arithmetic (Span.mk 3 4)).1,
   (span_index_arithmetic (Span.mk 3 4)).2.2.1 (by decide),
   (span_index_arithmetic (Span.mk 3 0)).2.2.2 rfl⟩

/-- C4: for every span `s` and integer `delta` (negative included, never
clamped), `s.translate delta` has start `s.startIndex + delta` and the same
length; `s.translate 0 = s`; and translation is additive. -/
theorem span_translate_spec :
    ∀ (s : Span) (delta : Int),
      (s.translate delta).startIndex = s.startIndex + delta ∧
      (s.translate delta).length = s.length ∧
      s.translate 0 = s ∧
      ∀ a b : Int, (s.translate a).translate b = s.translate (a + b) :=
  fun s delta =>
    ⟨Span.translate_startIndex s delta, Span.translate_length s delta,
     Span.translate_zero s, fun a b => Span.translate_translate s a b⟩

/-- C5: `Issue` construction fails (assertion fires) iff the span's length is
`< 1` or the message is empty; with length `≥ 1` and a non-empty message it
succeeds and returns the issue with the given fields. -/
theorem issue_construction_spec :
    ∀ (s : Span) (m : String) (k : IssueKind),
      (issueMk s m k = none ↔ (s.length < 1 ∨ m = "")) ∧
      (1 ≤ s.length → m ≠ "" → issueMk s m k = some (Issue.mk s m k)) := by
  intro s m k
  refine ⟨issueMk_eq_none_iff s m k, fun h1 h2 => ?_⟩
  unfold issueMk
  simp [h1, h2]

/-- Closed witness for C5: construction succeeds at `Span(3,4)` with message
`"m"`, and fails at a zero-length span and at an empty message. -/
theorem issue_construction_spec_witness :
    issueMk (Span.mk 3 4) "m" IssueKind.tleSyntax =
      some (Issue.mk (Span.mk 3 4) "m" IssueKind.tleSyntax) ∧
    issueMk (Span.mk 3 0) "m" IssueKind.tleSyntax = none ∧
    issueMk (Span.mk 3 4) "" IssueKind.tleSyntax = none :=
  ⟨(issue_construction_spec (Span.mk 3 4) "m" IssueKind.tleSyntax).2
      (by decide) (by decide),
   (issue_construction_spec (Span.mk 3 0) "m" IssueKind.tleSyntax).1.mpr
      (Or.inl (by decide)),
   (issue_construction_spec (Span.mk 3 4) "" IssueKind.tleSyntax).1.mpr
      (Or.inr rfl)⟩

/-- C6: translating a well-formed issue (span length `≥ 1`, non-empty
message) succeeds, keeps `message` and `kind` unchanged, translates the span
by the delta, and round-trips: translating by `d` then `-d` restores the
original issue. -/
theorem issue_translate_spec :
    ∀ (i : Issue) (d : Int), 1 ≤ i.span.length → i.message ≠ "" →
      i.translate d =
        some (Issue.mk (i.span.translate d) i.message i.kind) ∧
      (i.translate d).bind (fun j => j.translate (-d)) = some i := by
  intro i d h1 h2
  obtain ⟨sp, msg, kd⟩ := i
  simp only at h1 h2
  have hlen : (sp.translate d).length = sp.length := Span.translate_length sp d
  have hfst : (Issue.mk sp msg kd).translate d =
      some (Issue.mk (sp.translate d) msg kd) := by
    unfold Issue.translate issueMk
    simp only [hlen]
    simp [h1, h2]
  refine ⟨hfst, ?_⟩
  rw [hfst]
  show (Issue.mk (sp.translate d) msg kd).translate (-d) =
    some (Issue.mk sp msg kd)
  unfold Issue.translate issueMk
  simp only [Span.translate_translate, add_neg_cancel, Span.translate_zero]
  simp [h1, h2]

/-- Closed witness for C6 at a concrete issue and `d = 5`. -/
theorem issue_translate_spec_witness :
    (Issue.mk (Span.mk 3 4) "m" IssueKind.unusedVar).translate 5 =
      some (Issue.mk (Span.mk 8 4) "m" IssueKind.unusedVar) ∧
    ((Issue.mk (Span.mk 3 4) "m" IssueKind.unusedVar).translate 5).bind
        (fun j => j.translate (-5)) =
      some (Issue.mk (Span.mk 3 4) "m" IssueKind.unusedVar) :=
  ⟨(issue_translate_spec (Issue.mk (Span.mk 3 4) "m" IssueKind.unusedVar) 5
      (by decide) (by decide)).1,
   (issue_translate_spec (Issue.mk (Span.mk 3 4) "m" IssueKind.unusedVar) 5
      (by decide) (by decide)).2⟩

/-- C7: `Position` construction fails (assertion fires) iff the line or the
column is negative; for non-negative arguments it succeeds and the `line` and
`column` accessors return the constructor arguments unchanged. -/
theorem position_construction_spec :
    ∀ (line column : Int),
      (positionMk line column = none ↔ (line < 0 ∨ column < 0)) ∧
      (0 ≤ line → 0 ≤ column →
        positionMk line column = some (Position.mk line column) ∧
        (Position.mk line column).line = line ∧
        (Position.mk line column).column = column) := by
  intro line column
  refine ⟨positionMk_eq_none_iff line column, fun h1 h2 => ?_⟩
  unfold positionMk
  simp [h1, h2]

/-- Closed witness for C7: `Position(2,3)` succeeds; `Position(-1,0)` and
`Position(0,-1)` fail. -/
theorem position_construction_spec_witness :
    positionMk 2 3 = some (Position.mk 2 3) ∧
    positionMk (-1) 0 = none ∧
    positionMk 0 (-1) = none :=
  ⟨((position_construction_spec 2 3).2 (by decide) (by decide)).1,
   (position_construction_spec (-1) 0).1.mpr (Or.inl (by decide)),
   (position_construction_spec 0 (-1)).1.mpr (Or.inr (by decide))⟩

/-- C8: `IssueKind` is a closed enumeration with exactly the fifteen listed
tags: every value is one of them, they are pairwise distinct, and there are
fifteen. -/
theorem issueKind_closed_enumeration :
    (∀ k : IssueKind, k ∈ IssueKind.all) ∧
    IssueKind.all.Nodup ∧
    IssueKind.all.length = 15 := by
  refine ⟨fun k => ?_, by decide, rfl⟩
  cases k <;> simp [IssueKind.all]

/-- C9: a zero-length span still reports containing its own start offset:
`s.contains s.startIndex` is true (default flag) whenever `s.length = 0`. -/
theorem zero_length_span_contains_start :
    ∀ s : Span, s.length = 0 → s.contains s.startIndex false = true := by
  intro s h
  simp [Span.contains, Span.endIndex, h]

/-- Closed witness for C9 at `Span(5,0)`. -/
theorem zero_length_span_contains_start_witness :
    (Span.mk 5 0).contains 5 false = true :=
  zero_length_span_contains_start (Span.mk 5 0) rfl

/-- C10: the `Span` constructor validates nothing: every pair of integers,
negative values included, yields a span whose `startIndex` and `length`
accessors return the arguments unchanged, and with negative length
`afterEndIndex < startIndex` while `endIndex = startIndex`. -/
theorem span_no_validation :
    ∀ a b : Int,
      (Span.mk a b).startIndex = a ∧
      (Span.mk a b).length = b ∧
      (b < 0 →
        (Span.mk a b).afterEndIndex < (Span.mk a b).startIndex ∧
        (Span.mk a b).endIndex = (Span.mk a b).startIndex) := by
  intro a b
  refine ⟨rfl, rfl, fun h => ⟨?_, ?_⟩⟩ <;>
    simp [Span.afterEndIndex, Span.endIndex] <;> omega

/-- Closed witness for C10 at `Span(5,-3)`. -/
theorem span_no_validation_witness :
    (Span.mk 5 (-3)).startIndex = 5 ∧
    (Span.mk 5 (-3)).length = -3 ∧
    (Span.mk 5 (-3)).afterEndIndex < (Span.mk 5 (-3)).startIndex ∧
    (Span.mk 5 (-3)).endIndex = (Span.mk 5 (-3)).startIndex :=
  ⟨(span_no_validation 5 (-3)).1, (span_no_validation 5 (-3)).2.1,
   ((span_no_validation 5 (-3)).2.2 (by decide)).1,
   ((span_no_validation 5 (-3)).2.2 (by decide)).2⟩
